import Mathlib

/-!
Shallow embedding of the student CRUD service (`app/routes.py`): the entity
store, the Redis read-through cache helpers, the per-endpoint request
handlers, and the in-process metrics buffer, together with theorems about
the behaviours the specification describes.
-/

namespace StudentApi

/-- Modelled from the spec: the `Student` entity of `app/models.py`, which is
absent from the snapshot.  Spec §3: id integer generated on creation, name and
email strings, age optional integer, grade optional string; `to_dict`
serialises exactly these fields (entity JSON shape, spec §6). -/
structure Student where
  id : Nat
  name : String
  email : String
  age : Option Int
  grade : Option String
deriving Repr, DecidableEq

/-- A parsed JSON request body.  A field is `none` when the key is absent from
the JSON object; `age?` distinguishes an absent key from a present key holding
JSON null.  The whole body is `Option Payload`: `none` is a JSON null body. -/
structure Payload where
  name? : Option String
  email? : Option String
  age? : Option (Option Int)
  grade? : Option String
deriving Repr, DecidableEq

/-- Python `'age' in data` / `data.get('age')`: `.get` collapses an absent key
and a null value to `None`. -/
def Payload.ageGet (p : Payload) : Option Int :=
  p.age?.join

/-- Modelled from the spec: the opaque entity store (spec §4.1, `db.session` /
SQLAlchemy in the source).  Each mutating call durably persists the change
before returning; ids are assigned by the store on creation. -/
structure Store where
  students : List Student
  nextId : Nat
deriving Repr, DecidableEq

/-- `Student.query.get(sid)` over the modelled store. -/
def Store.getStudent (st : Store) (sid : Nat) : Option Student :=
  st.students.find? (fun s => s.id == sid)

/-- A value held in the cache: the JSON-serialised entity or collection
(`json.dumps` in `set_cache`). -/
inductive CVal where
  | vStudent (s : Student)
  | vList (l : List Student)
deriving Repr, DecidableEq

/-- Python truthiness of the decoded cache value (`if cached_students:`):
a dict is truthy, a list is truthy iff non-empty. -/
def CVal.truthy : CVal → Bool
  | .vStudent _ => true
  | .vList l => !l.isEmpty

/-- The Redis backend as the handlers can observe it during one request:
not configured (`current_app.redis` is None), raising on every operation,
or available with a key-value table. -/
inductive RedisState where
  | noRedis
  | failing
  | ok (entries : List (String × CVal))
deriving Repr, DecidableEq

/-- The entries the handler's connection exposes during the request: a raising
or absent backend exposes none.  The keys the Redis server physically holds
across requests are tracked separately by `phys_after`, since a raising
backend keeps its contents. -/
def RedisState.entries : RedisState → List (String × CVal)
  | .ok es => es
  | _ => []

/-- `get_from_cache` (routes.py:54-63): returns the decoded value on a hit;
a missing backend, a raised exception, or an absent key all yield `None`. -/
def get_from_cache (r : RedisState) (key : String) : Option CVal :=
  match r with
  | .ok es => es.lookup key
  | _ => none

/-- `set_cache` (routes.py:65-71): best-effort `setex`; a missing or failing
backend leaves the world unchanged. -/
def set_cache (r : RedisState) (key : String) (v : CVal) : RedisState :=
  match r with
  | .ok es => .ok ((key, v) :: es.filter (fun e => e.1 != key))
  | _ => r

/-- Redis glob matching for the patterns the app uses: a trailing `*` matches
any key extending the preceding prefix; otherwise exact match. -/
def globMatches (pat key : String) : Bool :=
  if pat.data.getLast? = some '*' then pat.data.dropLast.isPrefixOf key.data
  else pat == key

/-- `delete_cache_pattern` (routes.py:73-81): best-effort deletion of every
key matching the glob. -/
def delete_cache_pattern (r : RedisState) (pat : String) : RedisState :=
  match r with
  | .ok es => .ok (es.filter (fun e => !globMatches pat e.1))
  | _ => r

/-- A JSON response body. -/
inductive Body where
  | student (s : Student)
  | students (l : List Student)
  | err (msg : String)
  | msg (m : String)
  | health (overall dbState redisState : String)
  | ready (overall dbState : String)
deriving Repr, DecidableEq

/-- `jsonify` of a decoded cache value. -/
def CVal.toBody : CVal → Body
  | .vStudent s => .student s
  | .vList l => .students l

/-- Outcome of one handler invocation: HTTP status and body, the store and
cache afterwards, the `REQUEST_COUNT` status labels incremented (in order),
and how many times `REQUEST_LATENCY.observe` ran. -/
structure HResult where
  status : Nat
  body : Body
  store : Store
  redis : RedisState
  countIncs : List String
  latencyObs : Nat
deriving Repr, DecidableEq

/-- `create_student` (routes.py:84-123).  Validation only tests key
membership (`'email' not in data`, `'name' not in data`); on failure the
counter is incremented at line 93 and again in the `except BadRequest`
handler at line 114.  The constructor passes only name, email and
`data.get('age')` — `grade` is never read from the payload. -/
def create_student (data : Option Payload) (st : Store) (r : RedisState) : HResult :=
  match data with
  | none =>
      { status := 400, body := .err "Name and email are required", store := st,
        redis := r, countIncs := ["400", "400"], latencyObs := 1 }
  | some p =>
      if p.email?.isNone || p.name?.isNone then
        { status := 400, body := .err "Name and email are required", store := st,
          redis := r, countIncs := ["400", "400"], latencyObs := 1 }
      else
        let s : Student :=
          { id := st.nextId, name := p.name?.getD "", email := p.email?.getD "",
            age := p.ageGet, grade := none }
        { status := 201, body := .student s,
          store := { students := st.students ++ [s], nextId := st.nextId + 1 },
          redis := delete_cache_pattern r "students:*",
          countIncs := ["201"], latencyObs := 1 }

/-- The database branch of `get_students` (routes.py:141-149). -/
def get_students_db (st : Store) (r : RedisState) : HResult :=
  { status := 200, body := .students st.students, store := st,
    redis := set_cache r "students:all" (.vList st.students),
    countIncs := ["200"], latencyObs := 1 }

/-- `get_students` (routes.py:126-156): cache first, database on miss or on a
falsy cached value, write-through with TTL on the database path. -/
def get_students (st : Store) (r : RedisState) : HResult :=
  match get_from_cache r "students:all" with
  | some v =>
      if v.truthy then
        { status := 200, body := v.toBody, store := st, redis := r,
          countIncs := ["200"], latencyObs := 1 }
      else get_students_db st r
  | none => get_students_db st r

/-- The database branch of `get_student` (routes.py:174-185). -/
def get_student_db (sid : Nat) (st : Store) (r : RedisState) : HResult :=
  match st.getStudent sid with
  | none =>
      { status := 404, body := .err "Student not found", store := st, redis := r,
        countIncs := ["404"], latencyObs := 1 }
  | some s =>
      { status := 200, body := .student s, store := st,
        redis := set_cache r ("students:id:" ++ toString sid) (.vStudent s),
        countIncs := ["200"], latencyObs := 1 }

/-- `get_student` (routes.py:159-192): cache first; a truthy cached value is
served without consulting the store. -/
def get_student (sid : Nat) (st : Store) (r : RedisState) : HResult :=
  match get_from_cache r ("students:id:" ++ toString sid) with
  | some v =>
      if v.truthy then
        { status := 200, body := v.toBody, store := st, redis := r,
          countIncs := ["200"], latencyObs := 1 }
      else get_student_db sid st r
  | none => get_student_db sid st r

/-- The field updates of `update_student` (routes.py:208-213): each of name,
email, age changes only when its key is present; `grade` and `id` are never
touched. -/
def apply_update (p : Payload) (s : Student) : Student :=
  { s with
    name := p.name?.getD s.name,
    email := p.email?.getD s.email,
    age := match p.age? with | some v => v | none => s.age }

/-- `update_student` (routes.py:195-229).  `data = request.get_json()` runs
first but is only dereferenced after the 404 check; a null body then raises
`TypeError` at `'name' in data`, which the generic `except Exception` maps to
a 500 with a generic message.  On success the store commit happens before the
`students:*` invalidation, which happens before the response is returned. -/
def update_student (sid : Nat) (data : Option Payload) (st : Store) (r : RedisState) : HResult :=
  match st.getStudent sid with
  | none =>
      { status := 404, body := .err "Student not found", store := st, redis := r,
        countIncs := ["404"], latencyObs := 1 }
  | some s =>
      match data with
      | none =>
          { status := 500, body := .err "Failed to update student", store := st,
            redis := r, countIncs := ["500"], latencyObs := 1 }
      | some p =>
          let s2 := apply_update p s
          { status := 200, body := .student s2,
            store := { st with
              students := st.students.map (fun t => if t.id == sid then s2 else t) },
            redis := delete_cache_pattern r "students:*",
            countIncs := ["200"], latencyObs := 1 }

/-- `delete_student` (routes.py:232-257): delete, commit, then invalidate
`students:*`, then respond. -/
def delete_student (sid : Nat) (st : Store) (r : RedisState) : HResult :=
  match st.getStudent sid with
  | none =>
      { status := 404, body := .err "Student not found", store := st, redis := r,
        countIncs := ["404"], latencyObs := 1 }
  | some _ =>
      { status := 200, body := .msg "Student deleted successfully",
        store := { st with students := st.students.filter (fun t => t.id != sid) },
        redis := delete_cache_pattern r "students:*",
        countIncs := ["200"], latencyObs := 1 }

/-- The in-process metrics dictionary (routes.py:17-23), restricted to the
fields `record_request_metrics` touches. -/
structure Metrics where
  http_requests_total : Nat
  http_request_duration_seconds : List Int
deriving Repr, DecidableEq

/-- `record_request_metrics` (routes.py:25-33): append the new duration, then
drop the front sample when the buffer exceeds 1000 entries. -/
def record_request_metrics (m : Metrics) (duration : Int) : Metrics :=
  let buf := m.http_request_duration_seconds ++ [duration]
  { http_requests_total := m.http_requests_total + 1,
    http_request_duration_seconds := if buf.length > 1000 then buf.drop 1 else buf }

/-- Status and body of an endpoint that does not touch the store or cache
state. -/
structure SimpleResp where
  status : Nat
  body : Body
deriving Repr, DecidableEq

/-- The redis field of the healthy healthcheck body (routes.py:269-275). -/
def redis_health : RedisState → String
  | .noRedis => "unavailable"
  | .failing => "unhealthy"
  | .ok _ => "healthy"

/-- `healthcheck` (routes.py:260-288): `db.session.execute('SELECT 1')` runs
inside the `try`, so an unreachable store raises into the `except` branch and
yields a 500; a failing Redis only changes the reported redis field. -/
def healthcheck (dbOk : Bool) (r : RedisState) : SimpleResp :=
  if dbOk then
    { status := 200, body := .health "healthy" "healthy" (redis_health r) }
  else
    { status := 500, body := .err "unhealthy" }

/-- `readiness_check` (routes.py:321-342): 200 when the store answers
`SELECT 1`, 503 otherwise. -/
def readiness_check (dbOk : Bool) : SimpleResp :=
  if dbOk then { status := 200, body := .ready "ready" "connected" }
  else { status := 503, body := .ready "not ready" "disconnected" }

/-- Both write handlers invalidate with the key pattern `students:*`. -/
def missing_required (data : Option Payload) : Bool :=
  match data with
  | none => true
  | some p => p.email?.isNone || p.name?.isNone

theorem globMatches_of_students_prefix (k : String)
    (h : "students:".data <+: k.data) :
    globMatches "students:*" k = true := by
  have h1 : "students:*".data.getLast? = some '*' := by decide
  have h2 : "students:*".data.dropLast = "students:".data := by decide
  simp [globMatches, h1, h2, List.isPrefixOf_iff_prefix, h]

theorem globMatches_id_key (sid : Nat) :
    globMatches "students:*" ("students:id:" ++ toString sid) = true := by
  refine globMatches_of_students_prefix _ ?_
  rw [String.data_append]
  exact List.IsPrefix.trans (by decide) (List.prefix_append _ _)

theorem globMatches_all_key : globMatches "students:*" "students:all" = true := by
  decide

theorem lookup_filter_glob (es : List (String × CVal)) (pat k : String)
    (hk : globMatches pat k = true) :
    (es.filter (fun e => !globMatches pat e.1)).lookup k = none := by
  induction es with
  | nil => rfl
  | cons e es ih =>
    cases h : globMatches pat e.1 with
    | true => simpa [List.filter_cons, h] using ih
    | false =>
      have hne : (k == e.1) = false := by
        cases hbe : k == e.1 with
        | false => rfl
        | true =>
          have : k = e.1 := eq_of_beq hbe
          rw [this] at hk
          rw [hk] at h
          exact absurd h (by simp)
      simp [List.filter_cons, h, List.lookup, hne, ih]

theorem get_after_invalidate (r : RedisState) (k : String)
    (hk : globMatches "students:*" k = true) :
    get_from_cache (delete_cache_pattern r "students:*") k = none := by
  cases r with
  | noRedis => rfl
  | failing => rfl
  | ok es =>
    simpa [delete_cache_pattern, get_from_cache] using lookup_filter_glob es _ k hk

theorem no_students_key_after_invalidate (r : RedisState) (k : String) (v : CVal)
    (hmem : (k, v) ∈ (delete_cache_pattern r "students:*").entries) :
    globMatches "students:*" k = false := by
  cases r with
  | noRedis => simp [delete_cache_pattern, RedisState.entries] at hmem
  | failing => simp [delete_cache_pattern, RedisState.entries] at hmem
  | ok es =>
    simp [delete_cache_pattern, RedisState.entries, List.mem_filter] at hmem
    simpa using hmem.2

theorem find_update_eq (l : List Student) (sid : Nat) (s s2 : Student)
    (hf : l.find? (fun t => t.id == sid) = some s) (hid : s2.id = s.id) :
    (l.map (fun t => if t.id == sid then s2 else t)).find? (fun t => t.id == sid)
      = some s2 := by
  have hsid : s.id = sid := by
    have := List.find?_some hf
    simpa using this
  induction l with
  | nil => simp at hf
  | cons a l ih =>
    cases ha : (a.id == sid) with
    | true =>
      have has : a = s := by
        rw [List.find?_cons_of_pos _ (by simpa using ha)] at hf
        exact Option.some.inj hf
      simp only [List.map_cons, ha, if_true]
      exact List.find?_cons_of_pos _ (by simp [hid, hsid])
    | false =>
      rw [List.find?_cons_of_neg _ (by simp [ha])] at hf
      simp only [List.map_cons, ha, if_false]
      rw [List.find?_cons_of_neg _ (by simp [ha])]
      exact ih hf

/-- C3 counterexample: with an empty store but a lingering cache entry under
`students:id:1`, `GET /api/v1/students/1` serves the cached value with 200,
not 404 — the handler consults the cache before the store. -/
theorem c3_counterexample :
    Store.getStudent ⟨[], 5⟩ 1 = none ∧
    (get_student 1 ⟨[], 5⟩
      (.ok [("students:id:1", .vStudent ⟨1, "Ada", "ada@x.com", none, none⟩)])).status = 200 ∧
    ¬ (get_student 1 ⟨[], 5⟩
      (.ok [("students:id:1", .vStudent ⟨1, "Ada", "ada@x.com", none, none⟩)])).status = 404 := by
  decide

/-- C3 (amended): for an id absent from the store, `GET /api/v1/students/{id}`
returns 404 provided the cache holds no truthy entry under `students:id:{id}`;
a truthy cached entry is served with 200 without consulting the store. -/
theorem c3_amended_get_absent_404 (sid : Nat) (st : Store) (r : RedisState)
    (habs : st.getStudent sid = none)
    (hmiss : ∀ v, get_from_cache r ("students:id:" ++ toString sid) = some v →
      v.truthy = false) :
    (get_student sid st r).status = 404 ∧
    (get_student sid st r).body = .err "Student not found" := by
  cases hc : get_from_cache r ("students:id:" ++ toString sid) with
  | none => simp [get_student, hc, get_student_db, habs]
  | some v =>
    have ht := hmiss v hc
    simp [get_student, hc, ht, get_student_db, habs]

/-- Witness for `c3_amended_get_absent_404` at id 1, empty store, no cache. -/
theorem c3_amended_witness :
    (get_student 1 ⟨[], 0⟩ .noRedis).status = 404 ∧
    (get_student 1 ⟨[], 0⟩ .noRedis).body = .err "Student not found" :=
  c3_amended_get_absent_404 1 ⟨[], 0⟩ .noRedis (by decide)
    (fun v h => by simp [get_from_cache] at h)

/-- C4 counterexample: a body whose `name` key is present but holds the empty
string passes the membership-only validation: the handler returns 201 and the
entity is persisted, where the claim demands 400 and no persistence. -/
theorem c4_counterexample :
    (create_student (some ⟨some "", some "ada@x.com", none, none⟩) ⟨[], 0⟩ .noRedis).status
      = 201 ∧
    ¬ (create_student (some ⟨some "", some "ada@x.com", none, none⟩) ⟨[], 0⟩ .noRedis).status
      = 400 ∧
    (create_student (some ⟨some "", some "ada@x.com", none, none⟩) ⟨[], 0⟩ .noRedis).store.students
      ≠ [] := by
  decide

/-- C4 (amended): `POST /api/v1/students` returns 400 exactly when the body is
null or lacks the `name` key or the `email` key, and in that case nothing is
persisted; present-but-empty-string values pass validation. -/
theorem c4_amended_validation (data : Option Payload) (st : Store) (r : RedisState) :
    ((create_student data st r).status = 400 ↔ missing_required data = true) ∧
    (missing_required data = true → (create_student data st r).store = st) := by
  cases data with
  | none => simp [create_student, missing_required]
  | some p =>
    cases h : (p.email?.isNone || p.name?.isNone) with
    | true => simp [create_student, missing_required, h]
    | false => simp [create_student, missing_required, h]

/-- Witness for `c4_amended_validation` on a null body and the empty store. -/
theorem c4_amended_witness :
    ((create_student none ⟨[], 0⟩ .noRedis).status = 400 ↔ missing_required none = true) ∧
    (missing_required none = true → (create_student none ⟨[], 0⟩ .noRedis).store = ⟨[], 0⟩) :=
  c4_amended_validation none ⟨[], 0⟩ .noRedis

/-- C6: on the validation-failure path of `POST /api/v1/students` (body
`{"name": "NoEmail"}`) the request counter for status 400 is incremented
twice — once before `raise BadRequest` and once in the `except BadRequest`
handler — while the latency metric is observed exactly once. -/
theorem c6_double_count_eval :
    (create_student (some ⟨some "NoEmail", none, none, none⟩) ⟨[], 0⟩ .noRedis).countIncs
      = ["400", "400"] ∧
    (create_student (some ⟨some "NoEmail", none, none, none⟩) ⟨[], 0⟩ .noRedis).latencyObs
      = 1 := by
  decide

/-- C7: if the latency buffer holds at most 1000 samples before
`record_request_metrics` runs, it holds at most 1000 afterwards, and when it
was full the new buffer is the old one with its front (oldest) sample dropped
and the new sample appended — FIFO order preserved. -/
theorem c7_latency_buffer (m : Metrics) (d : Int)
    (hlen : m.http_request_duration_seconds.length ≤ 1000) :
    (record_request_metrics m d).http_request_duration_seconds.length ≤ 1000 ∧
    (m.http_request_duration_seconds.length = 1000 →
      (record_request_metrics m d).http_request_duration_seconds =
        m.http_request_duration_seconds.drop 1 ++ [d]) := by
  simp only [record_request_metrics]
  constructor
  · split
    · rename_i h
      simp at h ⊢
      omega
    · rename_i h
      simp at h ⊢
      omega
  · intro h1000
    split
    · have hd : List.drop 1 (m.http_request_duration_seconds ++ [d])
          = List.drop 1 m.http_request_duration_seconds ++ [d] :=
        List.drop_append_of_le_length (by omega)
      exact hd
    · rename_i h
      simp at h
      omega

/-- Witness for `c7_latency_buffer` on a full buffer of 1000 zero samples. -/
theorem c7_witness :
    (record_request_metrics ⟨0, List.replicate 1000 0⟩ 7).http_request_duration_seconds.length
      ≤ 1000 ∧
    ((List.replicate 1000 (0:Int)).length = 1000 →
      (record_request_metrics ⟨0, List.replicate 1000 0⟩ 7).http_request_duration_seconds =
        (List.replicate 1000 (0:Int)).drop 1 ++ [7]) :=
  c7_latency_buffer ⟨0, List.replicate 1000 0⟩ 7
    (by rw [show Metrics.http_request_duration_seconds ⟨0, List.replicate 1000 0⟩
          = List.replicate 1000 (0:Int) from rfl, List.length_replicate])

/-- C8 counterexample: with the store unreachable, `GET /api/v1/healthcheck`
returns 500, not 200 — the handler executes `SELECT 1` inside its `try`. -/
theorem c8_counterexample :
    (healthcheck false .noRedis).status = 500 ∧
    ¬ (healthcheck false .noRedis).status = 200 := by
  decide

/-- C8 (amended): `GET /api/v1/healthcheck` returns 200 exactly when the store
is reachable, independent of the cache backend (a cache failure only changes
the reported redis field), and `GET /api/v1/ready` returns 503 exactly when
the store is unreachable. -/
theorem c8_amended_health_ready (dbOk : Bool) (r : RedisState) :
    ((healthcheck dbOk r).status = 200 ↔ dbOk = true) ∧
    ((readiness_check dbOk).status = 503 ↔ dbOk = false) := by
  cases dbOk <;> simp [healthcheck, readiness_check]

/-- C10: a PUT on an existing student whose parsed JSON body is null reaches
the `'name' in data` membership test, raises, and is mapped by the generic
`except Exception` branch to a 500 with a generic message; the store is
untouched. -/
theorem c10_null_body_update_500 (sid : Nat) (st : Store) (r : RedisState) (s : Student)
    (hs : st.getStudent sid = some s) :
    (update_student sid none st r).status = 500 ∧
    ¬ (update_student sid none st r).status = 400 ∧
    (update_student sid none st r).body = .err "Failed to update student" ∧
    (update_student sid none st r).store = st := by
  simp [update_student, hs]

/-- Witness for `c10_null_body_update_500` on a one-student store. -/
theorem c10_witness :
    (update_student 1 none ⟨[⟨1, "Ada", "ada@x.com", none, none⟩], 2⟩ .noRedis).status = 500 ∧
    ¬ (update_student 1 none ⟨[⟨1, "Ada", "ada@x.com", none, none⟩], 2⟩ .noRedis).status = 400 ∧
    (update_student 1 none ⟨[⟨1, "Ada", "ada@x.com", none, none⟩], 2⟩ .noRedis).body
      = .err "Failed to update student" ∧
    (update_student 1 none ⟨[⟨1, "Ada", "ada@x.com", none, none⟩], 2⟩ .noRedis).store
      = ⟨[⟨1, "Ada", "ada@x.com", none, none⟩], 2⟩ :=
  c10_null_body_update_500 1 ⟨[⟨1, "Ada", "ada@x.com", none, none⟩], 2⟩ .noRedis
    ⟨1, "Ada", "ada@x.com", none, none⟩ (by decide)

/-- What a caller can observe of a handler invocation: status, body, and the
resulting store. -/
def sameOutcome (a b : HResult) : Prop :=
  a.status = b.status ∧ a.body = b.body ∧ a.store = b.store

/-- Concrete fixtures used by witnesses and counterexamples. -/
def ada : Student := ⟨1, "Ada", "ada@x.com", some 20, none⟩

def oneStudentStore : Store := ⟨[ada], 2⟩

def ageOnlyBody : Payload := ⟨none, none, some (some 30), none⟩

/-- C2: a raising cache backend is indistinguishable, in status, body and
resulting store, from an absent cache (every operation a miss / no-op), for
every student CRUD handler and every input. -/
theorem c2_cache_errors_transparent (data : Option Payload) (sid : Nat) (st : Store) :
    sameOutcome (create_student data st .failing) (create_student data st .noRedis) ∧
    sameOutcome (get_students st .failing) (get_students st .noRedis) ∧
    sameOutcome (get_student sid st .failing) (get_student sid st .noRedis) ∧
    sameOutcome (update_student sid data st .failing) (update_student sid data st .noRedis) ∧
    sameOutcome (delete_student sid st .failing) (delete_student sid st .noRedis) := by
  refine ⟨?_, ?_, ?_, ?_, ?_⟩
  · cases data with
    | none => exact ⟨rfl, rfl, rfl⟩
    | some p =>
      cases h : (p.email?.isNone || p.name?.isNone) with
      | true => simp [create_student, h, sameOutcome]
      | false => simp [create_student, h, sameOutcome, delete_cache_pattern]
  · simp [get_students, get_from_cache, get_students_db, set_cache, sameOutcome]
  · cases hdb : st.getStudent sid with
    | none => simp [get_student, get_from_cache, get_student_db, hdb, sameOutcome]
    | some s => simp [get_student, get_from_cache, get_student_db, hdb, set_cache, sameOutcome]
  · cases hdb : st.getStudent sid with
    | none => simp [update_student, hdb, sameOutcome]
    | some s =>
      cases data with
      | none => simp [update_student, hdb, sameOutcome]
      | some p => simp [update_student, hdb, sameOutcome, delete_cache_pattern]
  · cases hdb : st.getStudent sid with
    | none => simp [delete_student, hdb, sameOutcome]
    | some s => simp [delete_student, hdb, sameOutcome, delete_cache_pattern]

/-- C9: a PUT with an object body on an existing student returns 200 with the
partially updated entity: each of name, email, age changes only when its key
is supplied, id and grade are untouched, and the store holds exactly that
entity afterwards. -/
theorem c9_partial_update (sid : Nat) (p : Payload) (st : Store) (r : RedisState) (s : Student)
    (hs : st.getStudent sid = some s) :
    (update_student sid (some p) st r).status = 200 ∧
    (update_student sid (some p) st r).body = .student (apply_update p s) ∧
    (apply_update p s).id = s.id ∧
    (apply_update p s).name = p.name?.getD s.name ∧
    (apply_update p s).email = p.email?.getD s.email ∧
    (apply_update p s).age = (match p.age? with | some v => v | none => s.age) ∧
    (apply_update p s).grade = s.grade ∧
    (update_student sid (some p) st r).store.getStudent sid = some (apply_update p s) := by
  refine ⟨?_, ?_, rfl, rfl, rfl, rfl, rfl, ?_⟩
  · simp [update_student, hs]
  · simp [update_student, hs]
  · simp only [update_student, hs]
    exact find_update_eq st.students sid s (apply_update p s) hs rfl

/-- Witness for `c9_partial_update`: body `⟨none, none, some (some 30), none⟩`
(only `age` supplied, set to 30) against the one-student store. -/
theorem c9_witness :
    (update_student 1 (some ageOnlyBody) oneStudentStore .noRedis).status = 200 ∧
    (update_student 1 (some ageOnlyBody) oneStudentStore .noRedis).body
      = .student (apply_update ageOnlyBody ada) ∧
    (apply_update ageOnlyBody ada).id = ada.id ∧
    (apply_update ageOnlyBody ada).name = ageOnlyBody.name?.getD ada.name ∧
    (apply_update ageOnlyBody ada).email = ageOnlyBody.email?.getD ada.email ∧
    (apply_update ageOnlyBody ada).age
      = (match ageOnlyBody.age? with | some v => v | none => ada.age) ∧
    (apply_update ageOnlyBody ada).grade = ada.grade ∧
    (update_student 1 (some ageOnlyBody) oneStudentStore .noRedis).store.getStudent 1
      = some (apply_update ageOnlyBody ada) :=
  c9_partial_update 1 ageOnlyBody oneStudentStore .noRedis ada (by decide)

/-- The view one request has of a Redis server physically holding `es`: a
healthy connection exposes the entries, a raising connection hides them
behind exceptions.  The server's contents are unchanged by raising calls. -/
def request_view : Bool → List (String × CVal) → RedisState
  | true, es => .ok es
  | false, _ => .failing

/-- The keys the Redis server physically holds after a request that ran with
view `request_view avail es` and produced `res`: when the connection raised,
every cache call was swallowed (routes.py:61-62, 70-71, 80-81) and the
server's contents survive untouched; when it was healthy, the server holds
what the handler left behind. -/
def phys_after (avail : Bool) (es : List (String × CVal)) (res : HResult) :
    List (String × CVal) :=
  match avail with
  | true => res.redis.entries
  | false => es

/-- Fixture: a pre-mutation cache entry for student 1 physically on the
server. -/
def staleEntries : List (String × CVal) := [("students:id:1", .vStudent ada)]

/-- C1 counterexample: an update of student 1 while the cache backend raises
still returns 200 (the swallowed invalidation at routes.py:80-81), the
pre-mutation `students:id:1` entry physically survives on the server, and a
subsequent get on the recovered backend serves that stale pre-mutation
entity although the store holds the updated one. -/
theorem c1_counterexample :
    (update_student 1 (some ageOnlyBody) oneStudentStore
        (request_view false staleEntries)).status = 200 ∧
    phys_after false staleEntries
        (update_student 1 (some ageOnlyBody) oneStudentStore
          (request_view false staleEntries))
      = staleEntries ∧
    (update_student 1 (some ageOnlyBody) oneStudentStore
        (request_view false staleEntries)).store.getStudent 1
      = some (apply_update ageOnlyBody ada) ∧
    (get_student 1
        (update_student 1 (some ageOnlyBody) oneStudentStore
          (request_view false staleEntries)).store
        (request_view true
          (phys_after false staleEntries
            (update_student 1 (some ageOnlyBody) oneStudentStore
              (request_view false staleEntries))))).body
      = .student ada ∧
    ¬ Body.student ada = .student (apply_update ageOnlyBody ada) := by
  decide

theorem view_after_invalidate_miss (avail : Bool) (es : List (String × CVal)) (k : String)
    (hk : globMatches "students:*" k = true) :
    get_from_cache
      (request_view avail (delete_cache_pattern (.ok es) "students:*").entries) k
      = none := by
  cases avail with
  | false => rfl
  | true =>
    simpa [request_view, delete_cache_pattern, RedisState.entries, get_from_cache]
      using lookup_filter_glob es "students:*" k hk

/-- C1 (amended): when the cache backend is reachable during the mutating
request, a 200 update or delete leaves no `students:*` key physically on the
server, and a subsequent get of that id or list — whether the backend is then
reachable or raising — is served from the store, never from a pre-mutation
cache entry.  (When the backend raises during the write the invalidation is
silently skipped and pre-mutation entries survive: `c1_counterexample`.) -/
theorem c1_amended_invalidate_when_reachable (sid : Nat) (p : Payload) (st : Store)
    (es : List (String × CVal)) (avail2 : Bool) :
    ((update_student sid (some p) st (request_view true es)).status = 200 →
      (∀ k v, (k, v) ∈ phys_after true es
          (update_student sid (some p) st (request_view true es)) →
        globMatches "students:*" k = false) ∧
      (get_student sid (update_student sid (some p) st (request_view true es)).store
          (request_view avail2 (phys_after true es
            (update_student sid (some p) st (request_view true es))))).status = 200 ∧
      (get_student sid (update_student sid (some p) st (request_view true es)).store
          (request_view avail2 (phys_after true es
            (update_student sid (some p) st (request_view true es))))).body
        = (update_student sid (some p) st (request_view true es)).body ∧
      (get_students (update_student sid (some p) st (request_view true es)).store
          (request_view avail2 (phys_after true es
            (update_student sid (some p) st (request_view true es))))).body
        = .students (update_student sid (some p) st (request_view true es)).store.students) ∧
    ((delete_student sid st (request_view true es)).status = 200 →
      (∀ k v, (k, v) ∈ phys_after true es (delete_student sid st (request_view true es)) →
        globMatches "students:*" k = false) ∧
      (delete_student sid st (request_view true es)).store.getStudent sid = none ∧
      (get_student sid (delete_student sid st (request_view true es)).store
          (request_view avail2 (phys_after true es
            (delete_student sid st (request_view true es))))).status = 404 ∧
      (get_students (delete_student sid st (request_view true es)).store
          (request_view avail2 (phys_after true es
            (delete_student sid st (request_view true es))))).body
        = .students (delete_student sid st (request_view true es)).store.students) := by
  have hid := view_after_invalidate_miss avail2 es ("students:id:" ++ toString sid)
    (globMatches_id_key sid)
  have hall := view_after_invalidate_miss avail2 es "students:all" globMatches_all_key
  have hview : request_view true es = RedisState.ok es := rfl
  constructor
  · cases hdb : st.getStudent sid with
    | none => intro h; simp [update_student, hdb] at h
    | some s =>
      intro _
      have hfind :
          (({ st with students :=
              st.students.map (fun t => if t.id == sid then apply_update p s else t) } : Store)).getStudent sid
            = some (apply_update p s) :=
        find_update_eq st.students sid s (apply_update p s) hdb rfl
      refine ⟨?_, ?_, ?_, ?_⟩
      · intro k v hmem
        simp only [phys_after, update_student, hview, hdb] at hmem
        exact no_students_key_after_invalidate (.ok es) k v hmem
      · simp only [update_student, hview, hdb, phys_after, get_student, hid,
          get_student_db, hfind]
      · simp only [update_student, hview, hdb, phys_after, get_student, hid,
          get_student_db, hfind]
      · simp only [update_student, hview, hdb, phys_after, get_students, hall,
          get_students_db]
  · cases hdb : st.getStudent sid with
    | none => intro h; simp [delete_student, hdb] at h
    | some s =>
      intro _
      have hgone :
          (({ st with students := st.students.filter (fun t => t.id != sid) } : Store)).getStudent sid
            = none := by
        simp only [Store.getStudent, List.find?_eq_none]
        intro x hx
        rw [List.mem_filter] at hx
        simpa using hx.2
      refine ⟨?_, ?_, ?_, ?_⟩
      · intro k v hmem
        simp only [phys_after, delete_student, hview, hdb] at hmem
        exact no_students_key_after_invalidate (.ok es) k v hmem
      · simpa only [delete_student, hview, hdb] using hgone
      · simp only [delete_student, hview, hdb, phys_after, get_student, hid,
          get_student_db, hgone]
      · simp only [delete_student, hview, hdb, phys_after, get_students, hall,
          get_students_db]

/-- Witness for `c1_amended_invalidate_when_reachable`: with a reachable
backend still holding a stale entry for student 1, after an update a get of
that id is served fresh on a reachable backend (200 with the updated entity),
and after a delete a get of that id is 404 even on a raising backend. -/
theorem c1_amended_witness :
    (get_student 1
        (update_student 1 (some ageOnlyBody) oneStudentStore
          (request_view true staleEntries)).store
        (request_view true (phys_after true staleEntries
          (update_student 1 (some ageOnlyBody) oneStudentStore
            (request_view true staleEntries))))).status = 200 ∧
    (get_student 1
        (delete_student 1 oneStudentStore (request_view true staleEntries)).store
        (request_view false (phys_after true staleEntries
          (delete_student 1 oneStudentStore (request_view true staleEntries))))).status
      = 404 :=
  ⟨((c1_amended_invalidate_when_reachable 1 ageOnlyBody oneStudentStore staleEntries
      true).1 (by decide)).2.1,
   ((c1_amended_invalidate_when_reachable 1 ageOnlyBody oneStudentStore staleEntries
      false).2 (by decide)).2.2.1⟩

/-- Fixture: a valid creation payload that also supplies a grade. -/
def gradeBody : Payload := ⟨some "Ada", some "ada@x.com", none, some "A"⟩

/-- C5 counterexample: the create handler never reads `grade` from the
payload, so a payload carrying `grade = "A"` yields an entity whose grade is
null; the subsequent get does not return the supplied grade. -/
theorem c5_counterexample :
    (create_student (some gradeBody) ⟨[], 1⟩ .noRedis).status = 201 ∧
    (get_student 1 (create_student (some gradeBody) ⟨[], 1⟩ .noRedis).store
        (create_student (some gradeBody) ⟨[], 1⟩ .noRedis).redis).body
      = .student ⟨1, "Ada", "ada@x.com", none, none⟩ ∧
    ¬ (get_student 1 (create_student (some gradeBody) ⟨[], 1⟩ .noRedis).store
        (create_student (some gradeBody) ⟨[], 1⟩ .noRedis).redis).body
      = .student ⟨1, "Ada", "ada@x.com", none, some "A"⟩ := by
  decide

/-- C5 (amended): for every payload with name and email keys present, POST
returns 201 with an entity carrying the freshly assigned id (unused in the
store) and the supplied name, email and age, and grade null — the supplied
grade is ignored; a subsequent GET with that id returns that same entity. -/
theorem c5_amended_create_then_get (p : Payload) (st : Store) (r : RedisState)
    (nm em : String)
    (hn : p.name? = some nm) (he : p.email? = some em)
    (hfresh : ∀ t ∈ st.students, t.id < st.nextId) :
    (create_student (some p) st r).status = 201 ∧
    st.getStudent st.nextId = none ∧
    (create_student (some p) st r).body = .student ⟨st.nextId, nm, em, p.ageGet, none⟩ ∧
    (get_student st.nextId (create_student (some p) st r).store
        (create_student (some p) st r).redis).status = 200 ∧
    (get_student st.nextId (create_student (some p) st r).store
        (create_student (some p) st r).redis).body
      = .student ⟨st.nextId, nm, em, p.ageGet, none⟩ := by
  have hvalid : (p.email?.isNone || p.name?.isNone) = false := by simp [hn, he]
  have habsent : st.getStudent st.nextId = none := by
    simp only [Store.getStudent, List.find?_eq_none]
    intro t ht
    have := hfresh t ht
    simp only [beq_iff_eq]
    omega
  have hid := get_after_invalidate r ("students:id:" ++ toString st.nextId)
    (globMatches_id_key st.nextId)
  have hnew : (({ students := st.students ++
        [{ id := st.nextId, name := p.name?.getD "", email := p.email?.getD "",
           age := p.ageGet, grade := none }], nextId := st.nextId + 1 } : Store)).getStudent
        st.nextId
      = some { id := st.nextId, name := p.name?.getD "", email := p.email?.getD "",
               age := p.ageGet, grade := none } := by
    simp only [Store.getStudent, List.find?_append]
    rw [show st.students.find? (fun t => t.id == st.nextId) = none from habsent]
    simp
  refine ⟨?_, habsent, ?_, ?_, ?_⟩
  · simp [create_student, hvalid]
  · simp [create_student, hvalid, hn, he]
  · simp only [create_student, hvalid, Bool.false_eq_true, if_false, get_student, hid,
      get_student_db, hnew]
  · simp only [create_student, hvalid, Bool.false_eq_true, if_false, get_student, hid,
      get_student_db, hnew]
    simp [hn, he]

/-- Witness for `c5_amended_create_then_get` on the empty store. -/
theorem c5_witness :
    (create_student (some ⟨some "Ada", some "ada@x.com", some (some 20), none⟩) ⟨[], 0⟩
        .noRedis).status = 201 ∧
    Store.getStudent ⟨[], 0⟩ 0 = none ∧
    (create_student (some ⟨some "Ada", some "ada@x.com", some (some 20), none⟩) ⟨[], 0⟩
        .noRedis).body
      = .student ⟨0, "Ada", "ada@x.com",
          Payload.ageGet ⟨some "Ada", some "ada@x.com", some (some 20), none⟩, none⟩ ∧
    (get_student 0
        (create_student (some ⟨some "Ada", some "ada@x.com", some (some 20), none⟩) ⟨[], 0⟩
          .noRedis).store
        (create_student (some ⟨some "Ada", some "ada@x.com", some (some 20), none⟩) ⟨[], 0⟩
          .noRedis).redis).status = 200 ∧
    (get_student 0
        (create_student (some ⟨some "Ada", some "ada@x.com", some (some 20), none⟩) ⟨[], 0⟩
          .noRedis).store
        (create_student (some ⟨some "Ada", some "ada@x.com", some (some 20), none⟩) ⟨[], 0⟩
          .noRedis).redis).body
      = .student ⟨0, "Ada", "ada@x.com",
          Payload.ageGet ⟨some "Ada", some "ada@x.com", some (some 20), none⟩, none⟩ :=
  c5_amended_create_then_get ⟨some "Ada", some "ada@x.com", some (some 20), none⟩ ⟨[], 0⟩
    .noRedis "Ada" "ada@x.com" rfl rfl (by simp [List.mem_nil_iff])

end StudentApi
